import Mathlib

/-!
Shallow embedding of the `gfx-texture` crate (`src/lib.rs`): a texture
builder that validates a raw byte buffer against a declared image shape
and format, then hands off to a resource factory in three steps
(create_image, create_image_view, upload_image).

The hal data types (`Kind`, `Extent`, `Format`, flag sets, ...) are
embedded as the interface the crate consumes; u32 machine arithmetic is
modelled as `Nat` with explicit wrapping (`% 2^32`) at each
multiplication, matching release-mode Rust semantics of the expression in
`TextureBuilder::build`.  A Rust `assert!` failure is modelled as a
distinguished `panic` outcome.  The external `Factory` is modelled as a
triple of response functions, and `build` additionally records the exact
trace of factory requests it issues, plus the (unchanged) builder state,
so that call order and frame conditions are statable.
-/

/-- Image extent, `hal::image::Extent` (fields are `u32`). -/
structure Extent where
  width : Nat
  height : Nat
  depth : Nat
deriving DecidableEq, Repr

/-- Image kind, `hal::image::Kind`: `D1(size, layers)`,
`D2(width, height, layers, samples)`, `D3(width, height, depth)`. -/
inductive Kind where
  | D1 : Nat → Nat → Kind
  | D2 : Nat → Nat → Nat → Nat → Kind
  | D3 : Nat → Nat → Nat → Kind
deriving DecidableEq, Repr

/-- `Kind::extent()`: 1D images have height and depth 1, 2D images have
depth 1. -/
def Kind.extent : Kind → Extent
  | .D1 w _ => ⟨w, 1, 1⟩
  | .D2 w h _ _ => ⟨w, h, 1⟩
  | .D3 w h d => ⟨w, h, d⟩

/-- `hal::image::ViewKind`. -/
inductive ViewKind where
  | D1 | D1Array | D2 | D2Array | D3 | Cube | CubeArray
deriving DecidableEq, Repr

/-- `hal::format::Aspects` bitflags, as three explicit bits. -/
structure Aspects where
  color : Bool
  depth : Bool
  stencil : Bool
deriving DecidableEq, Repr

/-- `Aspects::COLOR`. -/
def Aspects.COLOR : Aspects := ⟨true, false, false⟩

/-- `Aspects::DEPTH`. -/
def Aspects.DEPTH : Aspects := ⟨false, true, false⟩

/-- `Aspects::STENCIL`. -/
def Aspects.STENCIL : Aspects := ⟨false, false, true⟩

/-- A pixel format, embedded by the data the crate reads from it:
`format.surface_desc().aspects` and `format.base_format().0.desc().bits`
(the per-pixel bit count, a `u16` cast losslessly to `u32`). -/
structure Format where
  aspects : Aspects
  bits : Nat
deriving DecidableEq, Repr

/-- `Format::Rgba8Srgb`: four 8-bit sRGB color channels, 32 bits per
pixel, color aspect only. -/
def Format.Rgba8Srgb : Format := ⟨Aspects.COLOR, 32⟩

/-- `Format::R8Unorm`: one 8-bit color channel. -/
def Format.R8Unorm : Format := ⟨Aspects.COLOR, 8⟩

/-- `Format::D32Float`: a depth-aspect format (32-bit depth). -/
def Format.D32Float : Format := ⟨Aspects.DEPTH, 32⟩

/-- `Format::D24UnormS8Uint`: a combined depth/stencil-aspect format. -/
def Format.D24UnormS8Uint : Format := ⟨⟨false, true, true⟩, 32⟩

/-- `hal::format::Component` (swizzle component source). -/
inductive Component where
  | Zero | One | R | G | B | A
deriving DecidableEq, Repr

/-- `hal::format::Swizzle`. -/
structure Swizzle where
  r : Component
  g : Component
  b : Component
  a : Component
deriving DecidableEq, Repr

/-- `Swizzle::NO`, the identity channel mapping. -/
def Swizzle.NO : Swizzle := ⟨.R, .G, .B, .A⟩

/-- `hal::image::Tiling`. -/
inductive Tiling where
  | Linear | Optimal
deriving DecidableEq, Repr

/-- `hal::image::Layout`. -/
inductive Layout where
  | General
  | ColorAttachmentOptimal
  | DepthStencilAttachmentOptimal
  | DepthStencilReadOnlyOptimal
  | ShaderReadOnlyOptimal
  | TransferSrcOptimal
  | TransferDstOptimal
  | Undefined
  | Preinitialized
  | Present
deriving DecidableEq, Repr

/-- `hal::image::Usage` bitflag `TRANSFER_SRC`. -/
def Usage.TRANSFER_SRC : Nat := 1

/-- `hal::image::Usage` bitflag `TRANSFER_DST`. -/
def Usage.TRANSFER_DST : Nat := 2

/-- `hal::image::Usage` bitflag `SAMPLED`. -/
def Usage.SAMPLED : Nat := 4

/-- `hal::image::Usage` bitflag `STORAGE`. -/
def Usage.STORAGE : Nat := 8

/-- `hal::image::StorageFlags::empty()`. -/
def StorageFlags.empty : Nat := 0

/-- `hal::memory::Properties` bitflag `DEVICE_LOCAL`. -/
def Properties.DEVICE_LOCAL : Nat := 1

/-- `hal::image::Access` bitflag `SHADER_READ`. -/
def Access.SHADER_READ : Nat := 32

/-- A Rust `Range` value such as `0..1` (`start` and the exclusive
upper end, here named `stop` because `end` is reserved). -/
structure Range where
  start : Nat
  stop : Nat
deriving DecidableEq, Repr

/-- `hal::image::SubresourceRange`. -/
structure SubresourceRange where
  aspects : Aspects
  levels : Range
  layers : Range
deriving DecidableEq, Repr

/-- `hal::image::SubresourceLayers`. -/
structure SubresourceLayers where
  aspects : Aspects
  level : Nat
  layers : Range
deriving DecidableEq, Repr

/-- `hal::image::Offset` (signed components). -/
structure Offset where
  x : Int
  y : Int
  z : Int
deriving DecidableEq, Repr

/-- `Offset::ZERO`. -/
def Offset.ZERO : Offset := ⟨0, 0, 0⟩

/-- `std::borrow::Cow`: a borrowed or owned buffer. -/
inductive Cow (α : Type) where
  | Borrowed : α → Cow α
  | Owned : α → Cow α
deriving DecidableEq, Repr

/-- The dereferenced contents of a `Cow` (both variants view the same
sequence). -/
def Cow.val {α : Type} : Cow α → α
  | .Borrowed a => a
  | .Owned a => a

/-- A fixed-layout, copyable element type of declared size `size`
(in bytes): its values occupy exactly `size` bytes of memory
(`encode`), and reading those bytes back (`decode`) recovers the value.
This captures the precondition of the crate's byte-reinterpretation
utility: a `T: Clone` with a fixed memory layout and positive size. -/
structure FixedLayout (α : Type) where
  size : Nat
  size_pos : 0 < size
  encode : α → List UInt8
  decode : List UInt8 → α
  encode_length : ∀ a, (encode a).length = size
  decode_encode : ∀ a, decode (encode a) = a

/-- `cast_slice`: reinterpret a borrowed `&[T]` as `&[u8]` over the same
memory — the concatenation of each element's bytes, of total length
`size_of::<T>() * slice.len()`. -/
def cast_slice {α : Type} (fl : FixedLayout α) (slice : List α) : List UInt8 :=
  (slice.map fl.encode).flatten

/-- `cast_vec`: reinterpret an owned `Vec<T>` as `Vec<u8>` over the same
memory (same backing bytes as `cast_slice`; the allocation reuse is a
memory-management detail with no observable content). -/
def cast_vec {α : Type} (fl : FixedLayout α) (vec : List α) : List UInt8 :=
  (vec.map fl.encode).flatten

/-- `cast_cow`: reinterpret a `Cow<[T]>` as `Cow<[u8]>`, keeping the
borrowed/owned variant. -/
def cast_cow {α : Type} (fl : FixedLayout α) : Cow (List α) → Cow (List UInt8)
  | .Borrowed slice => .Borrowed (cast_slice fl slice)
  | .Owned vec => .Owned (cast_vec fl vec)

/-- Reinterpret a byte buffer back as elements of the original type:
repeatedly read one element (`size` bytes) off the front.  This is the
inverse direction of `cast_slice`, used to state the round-trip law. -/
def uncast {α : Type} (fl : FixedLayout α) : List UInt8 → List α
  | [] => []
  | b :: bs => fl.decode ((b :: bs).take fl.size) :: uncast fl ((b :: bs).drop fl.size)
termination_by l => l.length
decreasing_by
  have h := fl.size_pos
  simp only [List.length_drop, List.length_cons]
  omega

/-- `TextureBuilder`: the builder's five fields.  `data_width` and
`data_height` are `u32`; `data` is `Cow<'a, [u8]>`. -/
structure TextureBuilder where
  kind : Kind
  format : Format
  data_width : Nat
  data_height : Nat
  data : Cow (List UInt8)
deriving DecidableEq, Repr

/-- `TextureBuilder::new(kind)`: default format `Rgba8Srgb`, strides
equal to the kind's extent, empty owned data buffer. -/
def TextureBuilder.new (kind : Kind) : TextureBuilder :=
  ⟨kind, Format.Rgba8Srgb, kind.extent.width, kind.extent.height, Cow.Owned []⟩

/-- Outcome of a setter that may `assert!`-panic. -/
inductive SetResult (α : Type) where
  | panic : SetResult α
  | ok : α → SetResult α
deriving DecidableEq, Repr

/-- `TextureBuilder::set_format`: `assert_eq!(format.surface_desc().aspects,
Aspects::COLOR)`, then store the format. -/
def TextureBuilder.set_format (b : TextureBuilder) (format : Format) :
    SetResult TextureBuilder :=
  if format.aspects = Aspects.COLOR then
    .ok ⟨b.kind, format, b.data_width, b.data_height, b.data⟩
  else .panic

/-- `TextureBuilder::with_format`: delegates to `set_format`. -/
def TextureBuilder.with_format (b : TextureBuilder) (format : Format) :
    SetResult TextureBuilder :=
  b.set_format format

/-- `TextureBuilder::set_data_width`: `assert!(data_width >=
self.kind.extent().width)`, then store. -/
def TextureBuilder.set_data_width (b : TextureBuilder) (data_width : Nat) :
    SetResult TextureBuilder :=
  if b.kind.extent.width ≤ data_width then
    .ok ⟨b.kind, b.format, data_width, b.data_height, b.data⟩
  else .panic

/-- `TextureBuilder::with_data_width`: delegates to `set_data_width`. -/
def TextureBuilder.with_data_width (b : TextureBuilder) (data_width : Nat) :
    SetResult TextureBuilder :=
  b.set_data_width data_width

/-- `TextureBuilder::set_data_height`: `assert!(data_height >=
self.kind.extent().height)`, then store. -/
def TextureBuilder.set_data_height (b : TextureBuilder) (data_height : Nat) :
    SetResult TextureBuilder :=
  if b.kind.extent.height ≤ data_height then
    .ok ⟨b.kind, b.format, b.data_width, data_height, b.data⟩
  else .panic

/-- `TextureBuilder::with_data_height`: delegates to `set_data_height`. -/
def TextureBuilder.with_data_height (b : TextureBuilder) (data_height : Nat) :
    SetResult TextureBuilder :=
  b.set_data_height data_height

/-- `TextureBuilder::set_data`: reinterpret the typed buffer through
`cast_cow` and store it; no validation. -/
def TextureBuilder.set_data {P : Type} (fl : FixedLayout P) (b : TextureBuilder)
    (data : Cow (List P)) : TextureBuilder :=
  ⟨b.kind, b.format, b.data_width, b.data_height, cast_cow fl data⟩

/-- `TextureBuilder::with_data`: delegates to `set_data`. -/
def TextureBuilder.with_data {P : Type} (fl : FixedLayout P) (b : TextureBuilder)
    (data : Cow (List P)) : TextureBuilder :=
  TextureBuilder.set_data fl b data

/-- One `u32` multiplication: wraps modulo `2^32` (release-mode Rust). -/
def u32mul (a b : Nat) : Nat := a * b % 4294967296

/-- The byte-length bound computed by `build`'s second `assert!`:
`self.data_width * extent.height * extent.depth *
(format bits as u32)`, a left-associated chain of `u32`
multiplications, each wrapping modulo `2^32`. -/
def buildRequiredBits (b : TextureBuilder) : Nat :=
  u32mul (u32mul (u32mul b.data_width b.kind.extent.height) b.kind.extent.depth)
    b.format.bits

/-- The view kind chosen by `build` for the stored kind (the `match` at
`create_image_view`): 1D/2D/3D dimensionality maps to `ViewKind::D1` /
`D2` / `D3`. -/
def buildViewKind : Kind → ViewKind
  | .D1 _ _ => .D1
  | .D2 _ _ _ _ => .D2
  | .D3 _ _ _ => .D3

/-- Arguments of `factory.create_image(...)`. -/
structure CreateImageArgs where
  kind : Kind
  mip_levels : Nat
  format : Format
  tiling : Tiling
  storage_flags : Nat
  usage : Nat
  memory : Nat
deriving DecidableEq, Repr

/-- Arguments of `factory.create_image_view(...)` (over image handle
type `Img`). -/
structure CreateImageViewArgs (Img : Type) where
  image : Img
  view_kind : ViewKind
  format : Format
  swizzle : Swizzle
  range : SubresourceRange
deriving DecidableEq, Repr

/-- Arguments of `factory.upload_image(...)`. -/
structure UploadImageArgs (Img : Type) where
  image : Img
  family : Nat
  layout : Layout
  access : Nat
  layers : SubresourceLayers
  offset : Offset
  extent : Extent
  data_width : Nat
  data_height : Nat
  data : List UInt8
deriving DecidableEq, Repr

/-- One request issued to the factory, with its full argument list. -/
inductive FactoryCall (Img : Type) where
  | createImage : CreateImageArgs → FactoryCall Img
  | createImageView : CreateImageViewArgs Img → FactoryCall Img
  | uploadImage : UploadImageArgs Img → FactoryCall Img
deriving DecidableEq, Repr

/-- The external resource factory: response functions for the three
capabilities `build` consumes, over opaque image/view/error types. -/
structure Factory (Img View Err : Type) where
  create_image : CreateImageArgs → Except Err Img
  create_image_view : CreateImageViewArgs Img → Except Err View
  upload_image : UploadImageArgs Img → Except Err Unit

/-- `Texture`: kind, format and the device image and view handles.  The
Rust accessors `kind()`, `format()`, `image()`, `view()` are the field
projections. -/
structure Texture (Img View : Type) where
  kind : Kind
  format : Format
  image : Img
  view : View
deriving DecidableEq, Repr

/-- Outcome of `TextureBuilder::build`: an `assert!` panic, a propagated
factory error (`?`), or a finished `Texture`. -/
inductive BuildOutcome (Img View Err : Type) where
  | panic : BuildOutcome Img View Err
  | err : Err → BuildOutcome Img View Err
  | ok : Texture Img View → BuildOutcome Img View Err
deriving DecidableEq, Repr

/-- Result of running `build`: the outcome, the trace of factory
requests issued (in order), and the builder state after the call
(`build` takes `&self`, embedded as explicit state passing). -/
structure BuildResult (Img View Err : Type) where
  outcome : BuildOutcome Img View Err
  calls : List (FactoryCall Img)
  builder : TextureBuilder
deriving DecidableEq, Repr

/-- The `create_image` argument list `build` uses. -/
def imageCall (b : TextureBuilder) : CreateImageArgs :=
  ⟨b.kind, 1, b.format, Tiling.Optimal, StorageFlags.empty,
    Usage.TRANSFER_DST.lor Usage.SAMPLED, Properties.DEVICE_LOCAL⟩

/-- The `create_image_view` argument list `build` uses, given the image
handle returned by `create_image`. -/
def viewCall {Img : Type} (b : TextureBuilder) (image : Img) :
    CreateImageViewArgs Img :=
  ⟨image, buildViewKind b.kind, b.format, Swizzle.NO,
    ⟨Aspects.COLOR, ⟨0, 1⟩, ⟨0, 1⟩⟩⟩

/-- The `upload_image` argument list `build` uses. -/
def uploadCall {Img : Type} (b : TextureBuilder) (image : Img) (family : Nat) :
    UploadImageArgs Img :=
  ⟨image, family, Layout.ShaderReadOnlyOptimal, Access.SHADER_READ,
    ⟨Aspects.COLOR, 0, ⟨0, 1⟩⟩, Offset.ZERO, b.kind.extent,
    b.data_width, b.data_height, b.data.val⟩

/-- `TextureBuilder::build(family, factory)`: assert the two validation
conditions, then `create_image`, `create_image_view`, `upload_image` in
sequence, propagating the first error; on success assemble the
`Texture` from the stored kind and format and the returned handles. -/
def TextureBuilder.build {Img View Err : Type} (b : TextureBuilder) (family : Nat)
    (factory : Factory Img View Err) : BuildResult Img View Err :=
  if b.data_width < b.kind.extent.width then ⟨.panic, [], b⟩
  else if b.data.val.length * 8 < buildRequiredBits b then ⟨.panic, [], b⟩
  else
    match factory.create_image (imageCall b) with
    | .error e => ⟨.err e, [.createImage (imageCall b)], b⟩
    | .ok image =>
      match factory.create_image_view (viewCall b image) with
      | .error e =>
        ⟨.err e, [.createImage (imageCall b), .createImageView (viewCall b image)], b⟩
      | .ok view =>
        match factory.upload_image (uploadCall b image family) with
        | .error e =>
          ⟨.err e,
            [.createImage (imageCall b), .createImageView (viewCall b image),
              .uploadImage (uploadCall b image family)], b⟩
        | .ok _ =>
          ⟨.ok ⟨b.kind, b.format, image, view⟩,
            [.createImage (imageCall b), .createImageView (viewCall b image),
              .uploadImage (uploadCall b image family)], b⟩

/-- A factory over `Nat` handles whose three capabilities always
succeed, used to instantiate universally quantified theorems at
concrete inputs. -/
def okFactory : Factory Nat Nat Nat :=
  ⟨fun _ => .ok 7, fun _ => .ok 8, fun _ => .ok ()⟩

/-- A factory over `Nat` handles whose `create_image` always fails with
error code 13. -/
def errFactory : Factory Nat Nat Nat :=
  ⟨fun _ => .error 13, fun _ => .ok 8, fun _ => .ok ()⟩

/-- A concrete 1×1 RGBA builder with a 4-byte buffer: both validation
conditions of `build` hold with equality. -/
def smallBuilder : TextureBuilder :=
  ⟨Kind.D2 1 1 1 1, Format.Rgba8Srgb, 1, 1, Cow.Owned [0, 0, 0, 0]⟩

/-- The overflowing configuration for C5: a 65536×65536 2D kind, fresh
from `new` (strides equal to the extent, format `Rgba8Srgb`, empty
buffer), whose true pixel-data size is `2^37` bits. -/
def overflowBuilder : TextureBuilder :=
  TextureBuilder.new (Kind.D2 65536 65536 1 1)

/-- A concrete two-byte fixed-layout element type for instantiating the
byte-reinterpretation law: a pair of bytes, laid out first component
first. -/
def pairLayout : FixedLayout (UInt8 × UInt8) :=
  ⟨2, by decide, fun p => [p.1, p.2],
    fun l => (l.headD 0, (l.drop 1).headD 0),
    fun _ => rfl, fun _ => rfl⟩

/-- C9: `TextureBuilder::new(kind)` always succeeds and yields a builder
with format `Rgba8Srgb` (32-bit sRGB color), `data_width` and
`data_height` equal to the kind's extent, and an empty data buffer. -/
theorem new_defaults (kind : Kind) :
    TextureBuilder.new kind =
      ⟨kind, Format.Rgba8Srgb, kind.extent.width, kind.extent.height, Cow.Owned []⟩ ∧
    (TextureBuilder.new kind).kind = kind ∧
    (TextureBuilder.new kind).format = Format.Rgba8Srgb ∧
    Format.Rgba8Srgb.aspects = Aspects.COLOR ∧
    Format.Rgba8Srgb.bits = 32 ∧
    (TextureBuilder.new kind).data_width = kind.extent.width ∧
    (TextureBuilder.new kind).data_height = kind.extent.height ∧
    (TextureBuilder.new kind).data.val = [] :=
  ⟨rfl, rfl, rfl, rfl, rfl, rfl, rfl, rfl⟩

/-- C7: `set_format` and `with_format` panic exactly when the format's
aspect set is not exactly `COLOR`; when it is exactly `COLOR`, they
replace the stored format and leave every other builder field
unchanged. -/
theorem set_format_spec (b : TextureBuilder) (format : Format) :
    (format.aspects ≠ Aspects.COLOR →
      b.set_format format = SetResult.panic ∧
      b.with_format format = SetResult.panic) ∧
    (format.aspects = Aspects.COLOR →
      b.set_format format =
        SetResult.ok ⟨b.kind, format, b.data_width, b.data_height, b.data⟩ ∧
      b.with_format format =
        SetResult.ok ⟨b.kind, format, b.data_width, b.data_height, b.data⟩) := by
  refine ⟨fun h => ?_, fun h => ?_⟩ <;>
    simp [TextureBuilder.set_format, TextureBuilder.with_format, h]

/-- Witness for C7 at concrete inputs: a depth format is rejected, a
color format is stored with the other fields untouched. -/
theorem set_format_spec_witness :
    (TextureBuilder.new (Kind.D2 2 2 1 1)).set_format Format.D32Float =
      SetResult.panic ∧
    (TextureBuilder.new (Kind.D2 2 2 1 1)).set_format Format.R8Unorm =
      SetResult.ok ⟨Kind.D2 2 2 1 1, Format.R8Unorm, 2, 2, Cow.Owned []⟩ :=
  ⟨((set_format_spec (TextureBuilder.new (Kind.D2 2 2 1 1)) Format.D32Float).1
      (by decide)).1,
   ((set_format_spec (TextureBuilder.new (Kind.D2 2 2 1 1)) Format.R8Unorm).2
      (by decide)).1⟩

/-- C8: `set_data_width`/`with_data_width` panic exactly when the value
is below the kind's extent width, and otherwise store it, leaving the
other fields unchanged; `set_data_height`/`with_data_height` behave
symmetrically with the extent height. -/
theorem set_data_stride_spec (b : TextureBuilder) (v : Nat) :
    (v < b.kind.extent.width →
      b.set_data_width v = SetResult.panic ∧
      b.with_data_width v = SetResult.panic) ∧
    (b.kind.extent.width ≤ v →
      b.set_data_width v =
        SetResult.ok ⟨b.kind, b.format, v, b.data_height, b.data⟩ ∧
      b.with_data_width v =
        SetResult.ok ⟨b.kind, b.format, v, b.data_height, b.data⟩) ∧
    (v < b.kind.extent.height →
      b.set_data_height v = SetResult.panic ∧
      b.with_data_height v = SetResult.panic) ∧
    (b.kind.extent.height ≤ v →
      b.set_data_height v =
        SetResult.ok ⟨b.kind, b.format, b.data_width, v, b.data⟩ ∧
      b.with_data_height v =
        SetResult.ok ⟨b.kind, b.format, b.data_width, v, b.data⟩) := by
  refine ⟨fun h => ?_, fun h => ?_, fun h => ?_, fun h => ?_⟩
  · simp [TextureBuilder.set_data_width, TextureBuilder.with_data_width,
      Nat.not_le.mpr h]
  · simp [TextureBuilder.set_data_width, TextureBuilder.with_data_width, h]
  · simp [TextureBuilder.set_data_height, TextureBuilder.with_data_height,
      Nat.not_le.mpr h]
  · simp [TextureBuilder.set_data_height, TextureBuilder.with_data_height, h]

/-- Witness for C8 at concrete inputs over a 4×4 2D kind: width 3 and
height 2 are rejected, width 6 and height 9 are stored. -/
theorem set_data_stride_spec_witness :
    (TextureBuilder.new (Kind.D2 4 4 1 1)).set_data_width 3 = SetResult.panic ∧
    (TextureBuilder.new (Kind.D2 4 4 1 1)).set_data_width 6 =
      SetResult.ok ⟨Kind.D2 4 4 1 1, Format.Rgba8Srgb, 6, 4, Cow.Owned []⟩ ∧
    (TextureBuilder.new (Kind.D2 4 4 1 1)).set_data_height 2 = SetResult.panic ∧
    (TextureBuilder.new (Kind.D2 4 4 1 1)).set_data_height 9 =
      SetResult.ok ⟨Kind.D2 4 4 1 1, Format.Rgba8Srgb, 4, 9, Cow.Owned []⟩ :=
  ⟨((set_data_stride_spec (TextureBuilder.new (Kind.D2 4 4 1 1)) 3).1 (by decide)).1,
   ((set_data_stride_spec (TextureBuilder.new (Kind.D2 4 4 1 1)) 6).2.1 (by decide)).1,
   ((set_data_stride_spec (TextureBuilder.new (Kind.D2 4 4 1 1)) 2).2.2.1 (by decide)).1,
   ((set_data_stride_spec (TextureBuilder.new (Kind.D2 4 4 1 1)) 9).2.2.2 (by decide)).1⟩

/-- C10: `build` takes the builder by shared reference and never writes
it: whatever the factory does and whatever the outcome (panic, error at
any step, or success), the builder state after `build` equals the state
before, field by field. -/
theorem build_preserves_builder {Img View Err : Type} (b : TextureBuilder)
    (family : Nat) (factory : Factory Img View Err) :
    (b.build family factory).builder = b ∧
    (b.build family factory).builder.kind = b.kind ∧
    (b.build family factory).builder.format = b.format ∧
    (b.build family factory).builder.data_width = b.data_width ∧
    (b.build family factory).builder.data_height = b.data_height ∧
    (b.build family factory).builder.data = b.data := by
  have h : (b.build family factory).builder = b := by
    unfold TextureBuilder.build
    repeat' split
    all_goals rfl
  exact ⟨h, by rw [h], by rw [h], by rw [h], by rw [h], by rw [h]⟩

/-- C1: whenever `data_width` is below the kind's extent width, or the
buffer's length in bits (`data.len() * 8`) is below the size bound the
code computes (`data_width * extent.height * extent.depth * bits`, in
u32 arithmetic), `build` fails immediately by assertion with an empty
request trace: no image, view, or upload request reaches the factory. -/
theorem build_fails_fast {Img View Err : Type} (b : TextureBuilder) (family : Nat)
    (factory : Factory Img View Err)
    (h : b.data_width < b.kind.extent.width ∨
      b.data.val.length * 8 < buildRequiredBits b) :
    b.build family factory = ⟨BuildOutcome.panic, [], b⟩ := by
  unfold TextureBuilder.build
  rcases h with h | h
  · rw [if_pos h]
  · by_cases h1 : b.data_width < b.kind.extent.width
    · rw [if_pos h1]
    · rw [if_neg h1, if_pos h]

/-- Witness for C1: a fresh 4×4 RGBA builder still has an empty buffer
(0 bits, required 512), so `build` panics with no factory call. -/
theorem build_fails_fast_witness :
    (TextureBuilder.new (Kind.D2 4 4 1 1)).build 0 okFactory =
      ⟨BuildOutcome.panic, [], TextureBuilder.new (Kind.D2 4 4 1 1)⟩ :=
  build_fails_fast (TextureBuilder.new (Kind.D2 4 4 1 1)) 0 okFactory
    (Or.inr (by decide))

/-- C2: when validation passes and every factory response succeeds,
`build` issues exactly three requests in strict order: `create_image`
with the stored kind, 1 mip level, the stored format, optimal tiling,
empty storage flags, usage `TRANSFER_DST | SAMPLED` and `DEVICE_LOCAL`
memory; then `create_image_view` over the returned image with the view
kind matching the kind's dimensionality, the same format, identity
swizzle and subresource range `{color, levels 0..1, layers 0..1}`; then
`upload_image` with layout `ShaderReadOnlyOptimal`, access
`SHADER_READ`, subresource `{color, level 0, layers 0..1}`, zero
offset, the kind's extent, the stored strides and the stored bytes. -/
theorem build_call_sequence {Img View Err : Type} (b : TextureBuilder) (family : Nat)
    (factory : Factory Img View Err) (img : Img) (v : View)
    (hw : b.kind.extent.width ≤ b.data_width)
    (hlen : buildRequiredBits b ≤ b.data.val.length * 8)
    (h1 : factory.create_image (imageCall b) = Except.ok img)
    (h2 : factory.create_image_view (viewCall b img) = Except.ok v)
    (h3 : factory.upload_image (uploadCall b img family) = Except.ok ()) :
    (b.build family factory).calls =
      [FactoryCall.createImage
        ⟨b.kind, 1, b.format, Tiling.Optimal, StorageFlags.empty,
          Usage.TRANSFER_DST.lor Usage.SAMPLED, Properties.DEVICE_LOCAL⟩,
       FactoryCall.createImageView
        ⟨img, buildViewKind b.kind, b.format, Swizzle.NO,
          ⟨Aspects.COLOR, ⟨0, 1⟩, ⟨0, 1⟩⟩⟩,
       FactoryCall.uploadImage
        ⟨img, family, Layout.ShaderReadOnlyOptimal, Access.SHADER_READ,
          ⟨Aspects.COLOR, 0, ⟨0, 1⟩⟩, Offset.ZERO, b.kind.extent,
          b.data_width, b.data_height, b.data.val⟩] := by
  have hbuild : b.build family factory =
      ⟨BuildOutcome.ok ⟨b.kind, b.format, img, v⟩,
        [FactoryCall.createImage (imageCall b),
         FactoryCall.createImageView (viewCall b img),
         FactoryCall.uploadImage (uploadCall b img family)], b⟩ := by
    simp [TextureBuilder.build, Nat.not_lt.mpr hw, Nat.not_lt.mpr hlen, h1, h2, h3]
  rw [hbuild]
  rfl

/-- Witness for C2: the 1×1 builder against the all-succeeding factory
produces exactly the three requests with the listed arguments. -/
theorem build_call_sequence_witness :
    (smallBuilder.build 5 okFactory).calls =
      [FactoryCall.createImage
        ⟨Kind.D2 1 1 1 1, 1, Format.Rgba8Srgb, Tiling.Optimal, StorageFlags.empty,
          Usage.TRANSFER_DST.lor Usage.SAMPLED, Properties.DEVICE_LOCAL⟩,
       FactoryCall.createImageView
        ⟨7, ViewKind.D2, Format.Rgba8Srgb, Swizzle.NO,
          ⟨Aspects.COLOR, ⟨0, 1⟩, ⟨0, 1⟩⟩⟩,
       FactoryCall.uploadImage
        ⟨7, 5, Layout.ShaderReadOnlyOptimal, Access.SHADER_READ,
          ⟨Aspects.COLOR, 0, ⟨0, 1⟩⟩, Offset.ZERO, ⟨1, 1, 1⟩, 1, 1,
          [0, 0, 0, 0]⟩] :=
  build_call_sequence smallBuilder 5 okFactory 7 8 (by decide) (by decide)
    rfl rfl rfl

/-- C3: when a factory step fails, `build` returns that error, issues no
further request (the trace stops at the failing call), and produces no
`Texture` (the outcome is `err`, not `ok`). -/
theorem build_propagates_factory_errors {Img View Err : Type} (b : TextureBuilder)
    (family : Nat) (factory : Factory Img View Err)
    (hw : b.kind.extent.width ≤ b.data_width)
    (hlen : buildRequiredBits b ≤ b.data.val.length * 8) :
    (∀ e, factory.create_image (imageCall b) = Except.error e →
      b.build family factory =
        ⟨BuildOutcome.err e, [FactoryCall.createImage (imageCall b)], b⟩) ∧
    (∀ img e, factory.create_image (imageCall b) = Except.ok img →
      factory.create_image_view (viewCall b img) = Except.error e →
      b.build family factory =
        ⟨BuildOutcome.err e,
          [FactoryCall.createImage (imageCall b),
           FactoryCall.createImageView (viewCall b img)], b⟩) ∧
    (∀ img v e, factory.create_image (imageCall b) = Except.ok img →
      factory.create_image_view (viewCall b img) = Except.ok v →
      factory.upload_image (uploadCall b img family) = Except.error e →
      b.build family factory =
        ⟨BuildOutcome.err e,
          [FactoryCall.createImage (imageCall b),
           FactoryCall.createImageView (viewCall b img),
           FactoryCall.uploadImage (uploadCall b img family)], b⟩) := by
  refine ⟨fun e h1 => ?_, fun img e h1 h2 => ?_, fun img v e h1 h2 h3 => ?_⟩
  · simp [TextureBuilder.build, Nat.not_lt.mpr hw, Nat.not_lt.mpr hlen, h1]
  · simp [TextureBuilder.build, Nat.not_lt.mpr hw, Nat.not_lt.mpr hlen, h1, h2]
  · simp [TextureBuilder.build, Nat.not_lt.mpr hw, Nat.not_lt.mpr hlen, h1, h2, h3]

/-- Witness for C3: against a factory whose `create_image` fails with
code 13, `build` returns that error after exactly one request. -/
theorem build_propagates_factory_errors_witness :
    smallBuilder.build 5 errFactory =
      ⟨BuildOutcome.err 13, [FactoryCall.createImage (imageCall smallBuilder)],
        smallBuilder⟩ :=
  (build_propagates_factory_errors smallBuilder 5 errFactory (by decide)
    (by decide)).1 13 rfl

/-- C4: on full success `build` returns a `Texture` made of the
builder's stored kind and format together with exactly the image and
view handles the factory returned; in particular the `kind()` and
`format()` accessors of any returned texture give the configured shape
and format, and `image()`/`view()` give the factory's handles. -/
theorem build_success_texture {Img View Err : Type} (b : TextureBuilder) (family : Nat)
    (factory : Factory Img View Err) (img : Img) (v : View)
    (hw : b.kind.extent.width ≤ b.data_width)
    (hlen : buildRequiredBits b ≤ b.data.val.length * 8)
    (h1 : factory.create_image (imageCall b) = Except.ok img)
    (h2 : factory.create_image_view (viewCall b img) = Except.ok v)
    (h3 : factory.upload_image (uploadCall b img family) = Except.ok ()) :
    (b.build family factory).outcome = BuildOutcome.ok ⟨b.kind, b.format, img, v⟩ ∧
    ∀ t : Texture Img View, (b.build family factory).outcome = BuildOutcome.ok t →
      t.kind = b.kind ∧ t.format = b.format ∧ t.image = img ∧ t.view = v := by
  have h : (b.build family factory).outcome =
      BuildOutcome.ok ⟨b.kind, b.format, img, v⟩ := by
    simp [TextureBuilder.build, Nat.not_lt.mpr hw, Nat.not_lt.mpr hlen, h1, h2, h3]
  refine ⟨h, fun t ht => ?_⟩
  have heq := h.symm.trans ht
  injection heq with heq
  rw [← heq]
  exact ⟨rfl, rfl, rfl, rfl⟩

/-- Witness for C4: the 1×1 builder against the all-succeeding factory
yields the texture assembled from its kind, its format, image handle 7
and view handle 8. -/
theorem build_success_texture_witness :
    (smallBuilder.build 5 okFactory).outcome =
      BuildOutcome.ok ⟨smallBuilder.kind, smallBuilder.format, 7, 8⟩ :=
  (build_success_texture smallBuilder 5 okFactory 7 8 (by decide) (by decide)
    rfl rfl rfl).1

/-- C5: `build`'s byte-length check multiplies in wrapping 32-bit
arithmetic.  The `overflowBuilder` configuration satisfies every setter
invariant, its true required size `data_width * height * depth * bits`
is `2^37 ≥ 2^32` bits, its empty buffer is strictly smaller than that
minimum, yet the computed bound wraps to 0, so `build` accepts the
buffer and proceeds to issue factory requests instead of panicking. -/
theorem build_size_check_wraps :
    overflowBuilder.kind.extent.width ≤ overflowBuilder.data_width ∧
    overflowBuilder.kind.extent.height ≤ overflowBuilder.data_height ∧
    overflowBuilder.format.aspects = Aspects.COLOR ∧
    2 ^ 32 ≤ overflowBuilder.data_width * overflowBuilder.kind.extent.height *
      overflowBuilder.kind.extent.depth * overflowBuilder.format.bits ∧
    overflowBuilder.data.val.length * 8 <
      overflowBuilder.data_width * overflowBuilder.kind.extent.height *
        overflowBuilder.kind.extent.depth * overflowBuilder.format.bits ∧
    buildRequiredBits overflowBuilder = 0 ∧
    (overflowBuilder.build 0 okFactory).outcome ≠ BuildOutcome.panic ∧
    (overflowBuilder.build 0 okFactory).calls ≠ [] := by
  refine ⟨by decide, by decide, by decide, by norm_num [overflowBuilder,
    TextureBuilder.new, Kind.extent, Format.Rgba8Srgb], by norm_num [overflowBuilder,
    TextureBuilder.new, Kind.extent, Format.Rgba8Srgb, Cow.val], by decide, ?_, ?_⟩ <;>
    decide

/-- Taking the length of the left part of an append returns the left
part. -/
theorem take_len_append {α : Type} (l r : List α) : (l ++ r).take l.length = l := by
  induction l with
  | nil => simp
  | cons a l ih => simp [ih]

/-- Dropping the length of the left part of an append returns the right
part. -/
theorem drop_len_append {α : Type} (l r : List α) : (l ++ r).drop l.length = r := by
  induction l with
  | nil => simp
  | cons a l ih => simp [ih]

/-- Reading one encoded element off the front of a byte buffer recovers
that element and leaves the rest of the buffer. -/
theorem uncast_encode_append {α : Type} (fl : FixedLayout α) (a : α)
    (rest : List UInt8) :
    uncast fl (fl.encode a ++ rest) = a :: uncast fl rest := by
  obtain ⟨b, bs, hcons⟩ : ∃ b bs, fl.encode a = b :: bs := by
    have hlen := fl.encode_length a
    have hpos := fl.size_pos
    cases h : fl.encode a with
    | nil => rw [h] at hlen; simp at hlen; omega
    | cons b bs => exact ⟨b, bs, rfl⟩
  have htake : (fl.encode a ++ rest).take fl.size = fl.encode a := by
    rw [← fl.encode_length a]; exact take_len_append _ _
  have hdrop : (fl.encode a ++ rest).drop fl.size = rest := by
    rw [← fl.encode_length a]; exact drop_len_append _ _
  rw [hcons, List.cons_append] at htake hdrop
  rw [hcons, List.cons_append]
  rw [uncast]
  rw [htake, hdrop, ← hcons, fl.decode_encode]

/-- Round trip for `cast_slice`: reinterpreting the byte image back as
elements recovers the original list. -/
theorem uncast_cast_slice {α : Type} (fl : FixedLayout α) (l : List α) :
    uncast fl (cast_slice fl l) = l := by
  induction l with
  | nil => simp [cast_slice, uncast]
  | cons a l ih =>
    have h : cast_slice fl (a :: l) = fl.encode a ++ cast_slice fl l := by
      simp [cast_slice]
    rw [h, uncast_encode_append, ih]

/-- `cast_slice` produces exactly `element_count * element_size`
bytes. -/
theorem cast_slice_length {α : Type} (fl : FixedLayout α) (l : List α) :
    (cast_slice fl l).length = l.length * fl.size := by
  induction l with
  | nil => simp [cast_slice]
  | cons a l ih =>
    have h : cast_slice fl (a :: l) = fl.encode a ++ cast_slice fl l := by
      simp [cast_slice]
    rw [h, List.length_append, fl.encode_length, ih, List.length_cons]
    ring

/-- C6: for any fixed-layout element type of size `K` and any buffer of
`N` elements (borrowed or owned), the byte-reinterpretation utility
(`cast_cow`, and the underlying `cast_slice`/`cast_vec`) produces
exactly `N * K` bytes — the concatenated per-element memory images —
reinterpreting those bytes back as elements recovers the original `N`
values, and an empty buffer maps to an empty byte buffer. -/
theorem cast_cow_spec {α : Type} (fl : FixedLayout α) (c : Cow (List α)) :
    (cast_cow fl c).val.length = c.val.length * fl.size ∧
    uncast fl (cast_cow fl c).val = c.val ∧
    (c.val = [] → (cast_cow fl c).val = []) ∧
    (cast_slice fl c.val).length = c.val.length * fl.size ∧
    uncast fl (cast_slice fl c.val) = c.val ∧
    (cast_vec fl c.val).length = c.val.length * fl.size ∧
    uncast fl (cast_vec fl c.val) = c.val := by
  have hvec : ∀ l : List α, cast_vec fl l = cast_slice fl l := fun _ => rfl
  have hval : (cast_cow fl c).val = cast_slice fl c.val := by
    cases c with
    | Borrowed s => rfl
    | Owned v => exact hvec v
  refine ⟨?_, ?_, ?_, ?_, ?_, ?_, ?_⟩
  · rw [hval]; exact cast_slice_length fl c.val
  · rw [hval]; exact uncast_cast_slice fl c.val
  · intro h; rw [hval, h]; rfl
  · exact cast_slice_length fl c.val
  · exact uncast_cast_slice fl c.val
  · rw [hvec]; exact cast_slice_length fl c.val
  · rw [hvec]; exact uncast_cast_slice fl c.val

/-- Witness for C6 at a concrete input: two byte-pairs (size 2) cast to
exactly 4 bytes. -/
theorem cast_cow_spec_witness :
    (cast_cow pairLayout
        (Cow.Owned [((1 : UInt8), (2 : UInt8)), (3, 4)])).val.length =
      [((1 : UInt8), (2 : UInt8)), (3, 4)].length * pairLayout.size :=
  (cast_cow_spec pairLayout (Cow.Owned [((1 : UInt8), (2 : UInt8)), (3, 4)])).1
